import Mathlib

/-!
Verification development for the tide task-execution engine.

The definitions below are a shallow embedding of the Rust sources:
`src/config.rs` (task/group/settings data model), `src/executor.rs`
(the command runner, the sudo negotiation flow and per-task execution),
and `src/main.rs` (task collection, partitioning, the sequential loop,
the parallel bin and the result summary).  External effects (process
spawning, the keychain, the interactive prompts, the filesystem) are
modelled by explicit oracle records supplied as inputs, so every
definition is executable.
-/

namespace Tide

/-- Task execution status, from `executor.rs` (`enum TaskStatus`). -/
inductive TaskStatus where
  | Success
  | Failed
  | Skipped
deriving DecidableEq, Repr

/-- Task execution result, from `executor.rs` (`struct TaskResult`).
Durations are modelled in whole seconds as naturals. -/
structure TaskResult where
  name : String
  group : String
  group_icon : String
  status : TaskStatus
  duration : Nat
  output : Option String
deriving DecidableEq, Repr

/-- Individual task configuration, from `config.rs` (`struct TaskConfig`).
The display-only `description` field is omitted; `env` is modelled as an
association list (the source uses a `HashMap`, whose iteration order the
executor merely forwards to the spawned process). -/
structure TaskConfig where
  name : String
  icon : String
  command : List String
  required : Bool
  «sudo» : Bool
  enabled : Bool
  check_command : Option String
  check_path : Option String
  timeout : Option Nat
  env : List (String × String)
  working_dir : Option String
deriving DecidableEq, Repr

/-- Task group configuration, from `config.rs` (`struct TaskGroup`);
the display-only `description` field is omitted. -/
structure TaskGroup where
  name : String
  icon : String
  enabled : Bool
  parallel : Bool
  tasks : List TaskConfig
deriving DecidableEq, Repr

/-- Global settings, from `config.rs` (`struct Settings`); only the fields
consumed by the execution core are modelled (the remaining fields drive
banners, weather and other presentation). -/
structure Settings where
  parallel_execution : Bool
  parallel_limit : Nat
  skip_optional_on_error : Bool
  verbose : Bool
  keychain_label : Option String
deriving DecidableEq, Repr

/-- CLI arguments, from `cli.rs` (`struct Args`); only the fields consumed
by the execution core are modelled. -/
structure Args where
  quiet : Bool
  dry_run : Bool
  groups : Option (List String)
  skip_groups : Option (List String)
  parallel : Nat
  force : Bool
  verbose : Bool
deriving DecidableEq, Repr

/-- Model of `shellexpand::tilde`: replace a leading `~` with the home directory. -/
def expandTilde (home : String) (s : String) : String :=
  if s = "~" then home
  else if s.startsWith "~/" then home ++ s.drop 1
  else s

/-- Outcome of waiting on one spawned process: either an IO-level error
(spawn failure and the like, surfaced through the question-mark operator)
or an exit with a success flag and captured stdout/stderr. -/
inductive ProcOutcome where
  | ioError (msg : String)
  | exit (success : Bool) (stdout : String) (stderr : String)
deriving DecidableEq, Repr

/-- Behaviour of one external process: how many seconds it would run for
if left alone, and what it would produce. -/
structure ProcBehavior where
  time : Nat
  outcome : ProcOutcome
deriving DecidableEq, Repr

/-- Oracle for `run_sudo_command`: the state of the sudo timestamp cache,
the keychain, the interactive prompt, and the behaviour of the actual
elevated process. `promptReply = none` models a failed/cancelled
`Password::interact()` call. -/
structure SudoEnv where
  cachedValid : Bool
  keychainPassword : Option String
  authValid : String → Bool
  promptReply : Option String
  entryExists : Bool
  saveReply : Bool
  saveOk : Bool
  proc : ProcBehavior

/-- Oracle for `ensure_sudo_auth` (pre-authorization): same shape as
`SudoEnv` but for the `allow_empty_password` prompt, `promptReply = none`
models a cancelled prompt and `some ""` an empty entry. -/
structure PreauthEnv where
  cachedValid : Bool
  keychainPassword : Option String
  authValid : String → Bool
  promptReply : Option String
  entryExists : Bool
  saveReply : Bool
  saveOk : Bool

/-- Oracle for one task execution: home directory (for tilde expansion),
the PATH probe used by `check_command`, the filesystem probe used by
`check_path`, the behaviour of the task process on the direct path, and
the sudo oracle for the elevated path. -/
structure TaskEnv where
  home : String
  checkCommandExists : String → Bool
  pathExists : String → Bool
  proc : ProcBehavior
  sudoEnv : SudoEnv

/-- The timeout diagnostic emitted by `run_command` (executor.rs). -/
def timeoutMsg (t : Nat) : String :=
  "Command timed out after " ++ toString t ++
  " seconds. This may indicate the command is waiting for input (like sudo password). Consider setting \x27sudo: true\x27 or \x27timeout: <seconds>\x27 in the task config."

/-- Model of `TaskExecutor::run_command` (executor.rs lines 420-486): reject an
empty vector, then race the process against `task.timeout` (default 300
seconds) and map the outcome.  The second component is the number of
seconds the call blocks for: the full process time, capped by the
timeout. -/
def run_command (proc : ProcBehavior) (task : TaskConfig) (cmd : List String) :
    Except String String × Nat :=
  if cmd = [] then (.error "Empty command", 0)
  else
    let timeout_secs := task.timeout.getD 300
    if proc.time > timeout_secs then
      (.error (timeoutMsg timeout_secs), timeout_secs)
    else
      match proc.outcome with
      | .ioError msg => (.error msg, proc.time)
      | .exit ok stdout stderr =>
        if ok then (.ok stdout, proc.time)
        else (.error ("Command failed: " ++ stderr), proc.time)

/-- The inner `run_actual` helper of `TaskExecutor::run_sudo_command`
(executor.rs lines 491-504): run `sudo args` via `Command::output()` with
no timeout guard — the call blocks for the process's full running time. -/
def run_actual (proc : ProcBehavior) : Except String String × Nat :=
  match proc.outcome with
  | .ioError _ => (.error "Failed to execute sudo command", proc.time)
  | .exit ok stdout stderr =>
    if ok then (.ok stdout, proc.time)
    else (.error ("Command failed: " ++ stderr), proc.time)

/-- Steps 3-4 of `TaskExecutor::run_sudo_command`: interactive prompt,
authentication, optional keychain save, then the actual command. -/
def sudoPromptFlow (se : SudoEnv) : Except String String × Nat :=
  match se.promptReply with
  | none => (.error "Password prompt failed", 0)
  | some pw =>
    if ¬ se.authValid pw then (.error "Failed to authenticate sudo", 0)
    else if ¬ se.entryExists ∧ se.saveReply ∧ ¬ se.saveOk then
      (.error "Failed to save password to keychain", 0)
    else run_actual se.proc

/-- Model of `TaskExecutor::run_sudo_command` (executor.rs lines 489-546): cached
sudo timestamp, then keychain password, then interactive prompt; on a
valid session run the elevated command (with no timeout). -/
def run_sudo_command (se : SudoEnv) (_args : List String) : Except String String × Nat :=
  if se.cachedValid then run_actual se.proc
  else
    match se.keychainPassword with
    | some pw => if se.authValid pw then run_actual se.proc else sudoPromptFlow se
    | none => sudoPromptFlow se

/-- Model of `TaskExecutor::ensure_sudo_auth` (executor.rs lines 135-218): cached
timestamp, then keychain password, then interactive prompt with
`allow_empty_password`; empty and cancelled entries abort with distinct
error strings. -/
def ensure_sudo_auth (pe : PreauthEnv) : Except String Unit :=
  if pe.cachedValid then .ok ()
  else
    let keychainOk :=
      match pe.keychainPassword with
      | some pw => pe.authValid pw
      | none => false
    if keychainOk then .ok ()
    else
      match pe.promptReply with
      | none => .error "User cancelled sudo authentication"
      | some pw =>
        if pw = "" then .error "User skipped sudo authentication"
        else if ¬ pe.authValid pw then .error "Invalid sudo password"
        else if ¬ pe.entryExists ∧ pe.saveReply ∧ ¬ pe.saveOk then
          .error "Failed to save password to keychain"
        else .ok ()

/-- The final argument vector of `execute_task` (executor.rs lines
253-256): prepend `sudo` when the task asks for elevation, the vector is
non-empty and it does not already start with `sudo`. -/
def finalCommand (task : TaskConfig) : List String :=
  if task.«sudo» ∧ task.command ≠ [] ∧ task.command.head? ≠ some "sudo" then
    "sudo" :: task.command
  else task.command

/-- The command-dispatch step of `execute_task` (executor.rs lines
368-373): delegate to `run_sudo_command` when the final vector starts
with `sudo`, otherwise to `run_command`. -/
def taskRunResult (env : TaskEnv) (task : TaskConfig) : Except String String × Nat :=
  let cmd := finalCommand task
  if cmd.head? = some "sudo" then run_sudo_command env.sudoEnv cmd.tail
  else run_command env.proc task cmd

/-- Model of `TaskExecutor::execute_task` (executor.rs lines 237-417): dry run,
preconditions, command dispatch, and classification of failures by
`task.required`.  The result's `duration` is the seconds the run step
blocked for (skip branches take no process time and are modelled as 0). -/
def execute_task (dry_run : Bool) (env : TaskEnv) (task : TaskConfig)
    (group_name : String) (group_icon : String) : TaskResult :=
  if dry_run then
    { name := task.name, group := group_name, group_icon := group_icon
      status := .Skipped, duration := 0
      output := some "Dry run - command not executed" }
  else if task.check_command.isSome ∧
      ¬ env.checkCommandExists (task.check_command.getD "") then
    { name := task.name, group := group_name, group_icon := group_icon
      status := .Skipped, duration := 0
      output := some ("Command \x27" ++ task.check_command.getD "" ++ "\x27 not found") }
  else if task.check_path.isSome ∧
      ¬ env.pathExists (expandTilde env.home (task.check_path.getD "")) then
    { name := task.name, group := group_name, group_icon := group_icon
      status := .Skipped, duration := 0
      output := some ("Path \x27" ++ task.check_path.getD "" ++ "\x27 not found") }
  else
    let r := taskRunResult env task
    match r.1 with
    | .ok out =>
      { name := task.name, group := group_name, group_icon := group_icon
        status := .Success, duration := r.2, output := some out }
    | .error e =>
      { name := task.name, group := group_name, group_icon := group_icon
        status := if task.required then .Failed else .Skipped
        duration := r.2, output := some e }

/-- Task collection (main.rs lines 75-102): walk the configured groups in
order, keep only enabled groups that pass the CLI include/exclude group
filters, and collect their enabled tasks together with the group name,
group icon and the group's parallel flag. -/
def collectTasks (groups : List TaskGroup) (argGroups : Option (List String))
    (skipGroups : Option (List String)) : List (TaskConfig × String × String × Bool) :=
  match groups with
  | [] => []
  | g :: rest =>
    let keep :=
      g.enabled &&
      (match argGroups with
       | some gs => gs.contains g.name
       | none => true) &&
      (match skipGroups with
       | some gs => !gs.contains g.name
       | none => true)
    let here :=
      if keep then
        (g.tasks.filter (fun t => t.enabled)).map (fun t => (t, g.name, g.icon, g.parallel))
      else []
    here ++ collectTasks rest argGroups skipGroups

/-- Task partitioning (main.rs lines 172-181): a task goes to the parallel
bin when its group is parallel, or when global `parallel_execution` is on
and the task does not require sudo; otherwise it goes to the sequential
bin.  Order is preserved within each bin. -/
def partitionTasks (parallel_execution : Bool) :
    List (TaskConfig × String × String × Bool) →
    List (TaskConfig × String × String) × List (TaskConfig × String × String)
  | [] => ([], [])
  | (t, g, gi, isPar) :: rest =>
    let (s, p) := partitionTasks parallel_execution rest
    if isPar || (parallel_execution && !t.«sudo») then (s, (t, g, gi) :: p)
    else ((t, g, gi) :: s, p)

/-- The sequential loop of main (main.rs lines 183-198).  Note the order
of operations in the source: when a result is `Failed` and
`skip_optional_on_error` is set, the loop `break`s BEFORE
`results.push(result)`, so the failed result itself is dropped from the
result list. -/
def runSequentialLoop (dry_run : Bool) (skipOpt : Bool) (envOf : TaskConfig → TaskEnv) :
    List (TaskConfig × String × String) → List TaskResult
  | [] => []
  | (t, g, gi) :: rest =>
    let r := execute_task dry_run (envOf t) t g gi
    if r.status = .Failed ∧ skipOpt then []
    else r :: runSequentialLoop dry_run skipOpt envOf rest

/-- Names of the sequential-bin tasks on which `execute_task` is actually
invoked by the loop of main.rs lines 183-198 (the tasks after a
skip-on-error break are never executed). -/
def seqExecNames (dry_run : Bool) (skipOpt : Bool) (envOf : TaskConfig → TaskEnv) :
    List (TaskConfig × String × String) → List String
  | [] => []
  | (t, g, gi) :: rest =>
    let r := execute_task dry_run (envOf t) t g gi
    t.name ::
      (if r.status = .Failed ∧ skipOpt then []
       else seqExecNames dry_run skipOpt envOf rest)

/-- The parallel bin (main.rs lines 200-228): every parallel task is
spawned and `join_all` collects every handle, so each dispatched parallel
task contributes exactly one result; `join_all` preserves spawn order. -/
def runParallelBin (dry_run : Bool) (envOf : TaskConfig → TaskEnv)
    (tasks : List (TaskConfig × String × String)) : List TaskResult :=
  tasks.map (fun tgi => execute_task dry_run (envOf tgi.1) tgi.1 tgi.2.1 tgi.2.2)

/-- The complete result list main hands to `display_results` (main.rs
lines 183-231): sequential-loop results followed by the parallel-bin
results. -/
def dispatchResults (args : Args) (settings : Settings)
    (envOf : TaskConfig → TaskEnv) (groups : List TaskGroup) : List TaskResult :=
  let all := collectTasks groups args.groups args.skip_groups
  let bins := partitionTasks settings.parallel_execution all
  runSequentialLoop args.dry_run settings.skip_optional_on_error envOf bins.1
    ++ runParallelBin args.dry_run envOf bins.2

/-- Size of the parallel-bin concurrency gate (main.rs lines 200-203):
`Semaphore::new(args.parallel.min(config.settings.parallel_limit))` —
the exact minimum of the two limits, with no lower clamp. -/
def semaphoreSize (cliParallel configLimit : Nat) : Nat :=
  Nat.min cliParallel configLimit

/-- Observable coordinator events of a run: one pre-authorization attempt
or one task execution. -/
inductive MainEvent where
  | preAuth
  | taskExec (name : String)
deriving DecidableEq, Repr

/-- The task-execution events of a run, in coordinator order: the
sequential bin first (truncated by the skip-on-error break), then the
parallel bin in dispatch order. -/
def mainTaskEvents (args : Args) (settings : Settings)
    (envOf : TaskConfig → TaskEnv) (groups : List TaskGroup) : List MainEvent :=
  let all := collectTasks groups args.groups args.skip_groups
  let bins := partitionTasks settings.parallel_execution all
  (seqExecNames args.dry_run settings.skip_optional_on_error envOf bins.1).map .taskExec
    ++ bins.2.map (fun tgi => MainEvent.taskExec tgi.1.name)

/-- The coordinator event sequence of main (main.rs lines 146-228):
pre-authorization is attempted when not in dry-run mode, not in quiet
mode and `sudo` is on the PATH; its result is matched and BOTH arms fall
through to the task loops (a failure only prints a warning), so the
attempt happens at most once, strictly before every task. -/
def mainEvents (args : Args) (settings : Settings) (sudoAvailable : Bool)
    (pe : PreauthEnv) (envOf : TaskConfig → TaskEnv) (groups : List TaskGroup) :
    List MainEvent :=
  let preauthPart :=
    if !args.dry_run && !args.quiet && sudoAvailable then
      match ensure_sudo_auth pe with
      | .ok _ => [MainEvent.preAuth]
      | .error _ => [MainEvent.preAuth]
    else []
  preauthPart ++ mainTaskEvents args settings envOf groups

/-- Number of pre-authorization attempts in an event sequence. -/
def preAuthCount (evs : List MainEvent) : Nat :=
  evs.countP (fun e => decide (e = MainEvent.preAuth))

/-- A `Stdio` request on a `std::process::Command` builder. -/
inductive StdioRequest where
  | inheritStdio
  | pipedStdio
  | nullStdio
deriving DecidableEq, Repr

/-- The explicit configuration accumulated on a `std::process::Command`
builder before `.output()` is called: program, arguments, the optional
stdin/stdout/stderr requests (`none` = left at the builder default), the
environment overrides and the working directory. -/
structure CommandBuilder where
  program : String
  args : List String
  stdinCfg : Option StdioRequest
  stdoutCfg : Option StdioRequest
  stderrCfg : Option StdioRequest
  envOverrides : List (String × String)
  workingDir : Option String
deriving DecidableEq, Repr

/-- Semantics of `Command::output()` for stdin: an unset stdin defaults to
the null device (never inherited from the parent terminal). -/
def resolvedStdin (b : CommandBuilder) : StdioRequest :=
  b.stdinCfg.getD .nullStdio

/-- Semantics of `Command::output()` for stdout: an unset stream defaults to
piped, i.e. captured. -/
def capturesStdout (b : CommandBuilder) : Bool :=
  (b.stdoutCfg.getD .pipedStdio) = .pipedStdio

/-- Semantics of `Command::output()` for stderr: an unset stream defaults to
piped, i.e. captured. -/
def capturesStderr (b : CommandBuilder) : Bool :=
  (b.stderrCfg.getD .pipedStdio) = .pipedStdio

/-- The builder configuration assembled by `TaskExecutor::run_command`
(executor.rs lines 431-451): program and arguments from the final
command vector, working directory and environment overrides from the
task, stdin explicitly bound to the null device, and stdout/stderr
explicitly piped unless verbose mode is on. -/
def runCommandBuilder (home : String) (verbose : Bool) (task : TaskConfig)
    (cmd : List String) : CommandBuilder :=
  { program := cmd.headD ""
    args := cmd.tail
    stdinCfg := some .nullStdio
    stdoutCfg := if verbose then none else some .pipedStdio
    stderrCfg := if verbose then none else some .pipedStdio
    envOverrides := task.env
    workingDir := task.working_dir.map (expandTilde home) }

/-- The builder configuration assembled by the `run_actual` helper of
`TaskExecutor::run_sudo_command` (executor.rs lines 491-495):
`Command::new("sudo").args(args).output()` with nothing else set — no
environment overrides, no working directory, no explicit stdio requests. -/
def runSudoBuilder (args : List String) : CommandBuilder :=
  { program := "sudo"
    args := args
    stdinCfg := none
    stdoutCfg := none
    stderrCfg := none
    envOverrides := []
    workingDir := none }

/-- The aggregate summary computed by `display_results` (main.rs lines
394-441): per-status counts, the longest task as selected by
`iter().max_by_key(|r| r.duration)`, and the failed results in list
order. -/
structure Summary where
  success : Nat
  failed : Nat
  skipped : Nat
  longest : Option TaskResult
  failedTasks : List TaskResult
deriving DecidableEq, Repr

/-- One step of Rust's `Iterator::max_by_key`: keep the accumulator only
when its key is strictly greater, so among equal maxima the LAST element
wins. -/
def durStep (acc : Option TaskResult) (r : TaskResult) : Option TaskResult :=
  match acc with
  | none => some r
  | some m => if m.duration > r.duration then some m else some r

/-- Model of `results.iter().max_by_key(|r| r.duration)` (main.rs line 419). -/
def maxByDuration (l : List TaskResult) : Option TaskResult :=
  l.foldl durStep none

/-- The pure summary underlying `display_results` (main.rs lines
394-441). -/
def summarize (results : List TaskResult) : Summary :=
  { success := results.countP (fun r => decide (r.status = TaskStatus.Success))
    failed := results.countP (fun r => decide (r.status = TaskStatus.Failed))
    skipped := results.countP (fun r => decide (r.status = TaskStatus.Skipped))
    longest := maxByDuration results
    failedTasks := results.filter (fun r => decide (r.status = TaskStatus.Failed)) }

/-! Concrete fixtures used to instantiate the theorems below. -/

/-- Fixture: a process that exits successfully after one second. -/
def procOk : ProcBehavior := { time := 1, outcome := .exit true "done" "" }

/-- Fixture: a process that exits non-zero after one second with stderr
`boom`. -/
def procFail : ProcBehavior := { time := 1, outcome := .exit false "" "boom" }

/-- Fixture: a sudo oracle with nothing cached and no usable secret. -/
def sudoEnvIdle : SudoEnv :=
  { cachedValid := false, keychainPassword := none, authValid := fun _ => false
    promptReply := none, entryExists := false, saveReply := false, saveOk := false
    proc := procOk }

/-- Fixture: an execution oracle where every precondition passes and the
task process succeeds. -/
def envOk : TaskEnv :=
  { home := "/h", checkCommandExists := fun _ => true, pathExists := fun _ => true
    proc := procOk, sudoEnv := sudoEnvIdle }

/-- Fixture: like `envOk` but the task process exits non-zero. -/
def envFail : TaskEnv := { envOk with proc := procFail }

/-- Fixture: a plain required task named `n` with command `run-n`. -/
def mkTask (n : String) : TaskConfig :=
  { name := n, icon := "", command := ["run-" ++ n], required := true
    «sudo» := false, enabled := true, check_command := none, check_path := none
    timeout := none, env := [], working_dir := none }

/-- Fixture: an enabled sequential group holding tasks A, B, C. -/
def seqGroupABC : TaskGroup :=
  { name := "G", icon := "", enabled := true, parallel := false
    tasks := [mkTask "A", mkTask "B", mkTask "C"] }

/-- Fixture: an enabled sequential group holding only task B. -/
def seqGroupB : TaskGroup :=
  { name := "G", icon := "", enabled := true, parallel := false
    tasks := [mkTask "B"] }

/-- Fixture: the oracle assignment where task B fails and every other
task succeeds. -/
def envOfFailB : TaskConfig → TaskEnv :=
  fun t => if t.name = "B" then envFail else envOk

/-- Fixture: CLI arguments with every filter off. -/
def argsDefault : Args :=
  { quiet := false, dry_run := false, groups := none, skip_groups := none
    parallel := 4, force := false, verbose := false }

/-- Fixture: settings with `skip_optional_on_error` enabled. -/
def settingsSkipOnError : Settings :=
  { parallel_execution := false, parallel_limit := 4
    skip_optional_on_error := true, verbose := false, keychain_label := none }

/-- Fixture: settings with `skip_optional_on_error` disabled. -/
def settingsNoSkip : Settings :=
  { settingsSkipOnError with skip_optional_on_error := false }

/-- Fixture: a task whose final vector starts with `sudo` and has no
explicit timeout. -/
def sudoTask : TaskConfig :=
  { name := "S", icon := "", command := ["sudo", "foo"], required := true
    «sudo» := true, enabled := true, check_command := none, check_path := none
    timeout := none, env := [], working_dir := none }

/-- Fixture: an oracle with a valid cached sudo session whose elevated
process runs for 301 seconds. -/
def envSlowSudo : TaskEnv :=
  { envOk with
    sudoEnv := { sudoEnvIdle with
                 cachedValid := true
                 proc := { time := 301, outcome := .exit true "ok" "" } } }

/-! Helper lemmas shared by several claims. -/

/-- With the skip-on-error policy off, the sequential loop of main is a
plain map of `execute_task` over the bin. -/
theorem runSequentialLoop_eq_map (dry_run : Bool) (envOf : TaskConfig → TaskEnv)
    (l : List (TaskConfig × String × String)) :
    runSequentialLoop dry_run false envOf l =
      l.map (fun tgi => execute_task dry_run (envOf tgi.1) tgi.1 tgi.2.1 tgi.2.2) := by
  induction l with
  | nil => rfl
  | cons x rest ih =>
    obtain ⟨t, g, gi⟩ := x
    simp only [runSequentialLoop, List.map_cons]
    rw [if_neg (by simp), ih]

/-- Partitioning never loses or duplicates a task. -/
theorem partitionTasks_length (pe : Bool) (l : List (TaskConfig × String × String × Bool)) :
    (partitionTasks pe l).1.length + (partitionTasks pe l).2.length = l.length := by
  induction l with
  | nil => rfl
  | cons x rest ih =>
    obtain ⟨t, g, gi, isPar⟩ := x
    simp only [partitionTasks]
    split <;> simp only [List.length_cons] <;> omega

/-- C1, counterexample: with `skip_optional_on_error` set, an enabled,
required sequential task whose process fails contributes NO `TaskResult`
at all — the sequential loop of main.rs lines 183-198 breaks before
pushing the failed result, so the Dispatcher returns an incomplete
result set (here: empty, although one enabled task was collected). -/
theorem C1_counterexample_failed_task_contributes_no_result :
    dispatchResults argsDefault settingsSkipOnError envOfFailB [seqGroupB] = [] ∧
    (collectTasks [seqGroupB] none none).length = 1 := by
  constructor <;> decide

/-- C1, amended: when `skip_optional_on_error` is false, each enabled
task in an enabled, filter-matching group contributes exactly one
`TaskResult`: the result list is exactly `execute_task` mapped over the
sequential bin followed by `execute_task` mapped over the parallel bin,
and its length equals the number of collected tasks.  (When the flag is
set and a sequential task fails, that task and the remaining sequential
tasks contribute no result.) -/
theorem C1_amended_each_task_one_result_without_skip_policy :
    ∀ (args : Args) (settings : Settings) (envOf : TaskConfig → TaskEnv)
      (groups : List TaskGroup),
    settings.skip_optional_on_error = false →
    dispatchResults args settings envOf groups =
      ((partitionTasks settings.parallel_execution
          (collectTasks groups args.groups args.skip_groups)).1).map
        (fun tgi => execute_task args.dry_run (envOf tgi.1) tgi.1 tgi.2.1 tgi.2.2)
      ++ ((partitionTasks settings.parallel_execution
          (collectTasks groups args.groups args.skip_groups)).2).map
        (fun tgi => execute_task args.dry_run (envOf tgi.1) tgi.1 tgi.2.1 tgi.2.2) ∧
    (dispatchResults args settings envOf groups).length =
      (collectTasks groups args.groups args.skip_groups).length := by
  intro args settings envOf groups hskip
  constructor
  · simp only [dispatchResults, runParallelBin]
    rw [hskip, runSequentialLoop_eq_map]
  · simp only [dispatchResults, runParallelBin]
    rw [hskip, runSequentialLoop_eq_map, List.length_append, List.length_map,
      List.length_map]
    exact partitionTasks_length settings.parallel_execution
      (collectTasks groups args.groups args.skip_groups)

/-- C1, witness for the amended theorem at a concrete run. -/
theorem C1_amended_witness :
    (dispatchResults argsDefault settingsNoSkip envOfFailB [seqGroupABC]).length =
      (collectTasks [seqGroupABC] argsDefault.groups argsDefault.skip_groups).length :=
  (C1_amended_each_task_one_result_without_skip_policy argsDefault settingsNoSkip
    envOfFailB [seqGroupABC] rfl).2

/-- C2: in the sequential scenario A, B, C with B required and failing
under `skip_optional_on_error = true`, the code produces ONLY
`[Success(A)]` — the `break` in main.rs line 194 executes before
`results.push(result)` in line 197, so `Failed(B)` is dropped from the
result list; C is never executed (only A and B reach `execute_task`).
The claimed result list `[Success(A), Failed(B)]` is what the spec
states; this theorem documents what the code actually does. -/
theorem C2_code_drops_failed_result :
    dispatchResults argsDefault settingsSkipOnError envOfFailB [seqGroupABC] =
      [{ name := "A", group := "G", group_icon := "", status := .Success,
         duration := 1, output := some "done" }] ∧
    seqExecNames false true envOfFailB
        (partitionTasks false (collectTasks [seqGroupABC] none none)).1 =
      ["A", "B"] := by
  constructor <;> decide

/-- The elevated `run_actual` helper always blocks for the full process
time — it has no timeout race. -/
theorem run_actual_time (p : ProcBehavior) : (run_actual p).2 = p.time := by
  rcases p with ⟨t, oc⟩
  cases oc with
  | ioError m => rfl
  | exit ok out err => cases ok <;> rfl

/-- The direct runner path blocks at most `task.timeout` (default 300)
seconds. -/
theorem run_command_time_le (p : ProcBehavior) (task : TaskConfig)
    (cmd : List String) : (run_command p task cmd).2 ≤ task.timeout.getD 300 := by
  rcases p with ⟨t, oc⟩
  simp only [run_command]
  by_cases hcm : cmd = []
  · rw [if_pos hcm]
    exact Nat.zero_le _
  · rw [if_neg hcm]
    by_cases ht : t > task.timeout.getD 300
    · rw [if_pos ht]
    · rw [if_neg ht]
      have hle : t ≤ task.timeout.getD 300 := Nat.le_of_not_lt ht
      cases oc with
      | ioError m => exact hle
      | exit ok out err => cases ok <;> exact hle

/-- C3, amended: the direct (non-elevated) runner path never blocks
longer than `task.timeout` (default 300 seconds) and on timeout returns
the combined waiting-for-input/timeout diagnostic; the elevated path
(`run_sudo_command`, here with a valid cached session) has no timeout
guard at all and blocks for the process's full running time. -/
theorem C3_amended_timeout_only_on_direct_path :
    (∀ (proc : ProcBehavior) (task : TaskConfig) (cmd : List String),
      (run_command proc task cmd).2 ≤ task.timeout.getD 300 ∧
      (cmd ≠ [] → proc.time > task.timeout.getD 300 →
        (run_command proc task cmd).1 =
          .error (timeoutMsg (task.timeout.getD 300)))) ∧
    (∀ (se : SudoEnv) (args : List String), se.cachedValid = true →
      (run_sudo_command se args).2 = se.proc.time) := by
  constructor
  · intro proc task cmd
    refine ⟨run_command_time_le proc task cmd, ?_⟩
    intro hne hgt
    simp only [run_command]
    rw [if_neg hne, if_pos hgt]
  · intro se args hc
    simp only [run_sudo_command]
    rw [if_pos hc]
    exact run_actual_time se.proc

/-- C3, witness: on a valid cached session the elevated path blocks for
the full 301 seconds of the underlying process. -/
theorem C3_amended_witness :
    (run_sudo_command
      { sudoEnvIdle with
        cachedValid := true
        proc := { time := 301, outcome := .exit true "ok" "" } } ["foo"]).2 = 301 :=
  C3_amended_timeout_only_on_direct_path.2
    { sudoEnvIdle with
      cachedValid := true
      proc := { time := 301, outcome := .exit true "ok" "" } } ["foo"] rfl

/-- C3, counterexample: a task whose final argument vector begins with
the escalation command, with no explicit timeout (so the claimed bound
is the 300-second default), blocks for 301 seconds — the claim that run
never blocks longer than `task.timeoutSeconds` fails on the elevated
path. -/
theorem C3_counterexample_sudo_path_blocks_past_timeout :
    (execute_task false envSlowSudo sudoTask "G" "").duration = 301 ∧
    ¬ ((execute_task false envSlowSudo sudoTask "G" "").duration ≤
        sudoTask.timeout.getD 300) := by
  constructor <;> decide

/-- C4, counterexample: the gate is created with exactly
`args.parallel.min(parallel_limit)` and NO minimum of 1 is applied — a
CLI limit of 0 yields a gate of size 0 (which admits no parallel task),
not the claimed minimum effective size of 1. -/
theorem C4_counterexample_no_minimum_gate_size :
    semaphoreSize 0 4 = 0 ∧ semaphoreSize 0 4 ≠ 1 := by
  constructor <;> decide

/-- C4, amended: the parallel-bin gate is created with size exactly
`min(CLI limit, configured limit)`; the size is 0 — admitting no
parallel tasks — exactly when either limit is 0. -/
theorem C4_amended_gate_exact_min :
    ∀ (cliParallel configLimit : Nat),
      semaphoreSize cliParallel configLimit = Nat.min cliParallel configLimit ∧
      (semaphoreSize cliParallel configLimit = 0 ↔
        cliParallel = 0 ∨ configLimit = 0) := by
  intro a b
  refine ⟨rfl, ?_⟩
  simp only [semaphoreSize, Nat.min_def]
  split <;> omega

/-- C5: every task process the runner spawns has stdin bound to an empty
source.  The direct path (`run_command`) sets `Stdio::null()` explicitly;
the elevated path (`run_actual`) leaves stdin unset and waits via
`Command::output()`, whose default is to NOT inherit stdin.  In both
cases the resolved stdin is the null device and never the parent
terminal. -/
theorem C5_stdin_never_inherited :
    ∀ (home : String) (verbose : Bool) (task : TaskConfig)
      (cmd : List String) (args : List String),
    resolvedStdin (runCommandBuilder home verbose task cmd) = StdioRequest.nullStdio ∧
    resolvedStdin (runSudoBuilder args) = StdioRequest.nullStdio ∧
    resolvedStdin (runCommandBuilder home verbose task cmd) ≠ StdioRequest.inheritStdio ∧
    resolvedStdin (runSudoBuilder args) ≠ StdioRequest.inheritStdio := by
  intro home verbose task cmd args
  refine ⟨rfl, rfl, ?_, ?_⟩ <;>
    simp [resolvedStdin, runCommandBuilder, runSudoBuilder]

/-- C10: the elevated execution path runs `sudo` with only the argument
list — no environment overrides, no working directory — and both output
streams are captured whatever the verbose flag is; the direct path, by
contrast, applies the task's `env` and tilde-expanded `working_dir`. -/
theorem C10_sudo_path_ignores_overrides_and_captures :
    ∀ (args : List String) (home : String) (verbose : Bool) (task : TaskConfig)
      (cmd : List String),
    (runSudoBuilder args).envOverrides = [] ∧
    (runSudoBuilder args).workingDir = none ∧
    capturesStdout (runSudoBuilder args) = true ∧
    capturesStderr (runSudoBuilder args) = true ∧
    (runCommandBuilder home verbose task cmd).envOverrides = task.env ∧
    (runCommandBuilder home verbose task cmd).workingDir =
      task.working_dir.map (expandTilde home) := by
  intro args home verbose task cmd
  exact ⟨rfl, rfl, rfl, rfl, rfl, rfl⟩

/-- Shared classification core for C6 and C9: when dry-run is off, both
preconditions pass and the run step returns an error, `execute_task`
reports `Failed` for a required task and `Skipped` otherwise, carrying
the error string as the result's output. -/
theorem execute_task_error_classify (env : TaskEnv) (task : TaskConfig)
    (g gi e : String)
    (hc : ∀ c, task.check_command = some c → env.checkCommandExists c = true)
    (hp : ∀ p, task.check_path = some p →
      env.pathExists (expandTilde env.home p) = true)
    (he : (taskRunResult env task).1 = .error e) :
    (execute_task false env task g gi).status =
      (if task.required then TaskStatus.Failed else TaskStatus.Skipped) ∧
    (execute_task false env task g gi).output = some e := by
  have h1 : ¬ (task.check_command.isSome ∧
      ¬ env.checkCommandExists (task.check_command.getD "")) := by
    rintro ⟨hs, hn⟩
    cases hcc : task.check_command with
    | none => rw [hcc] at hs; exact Bool.noConfusion hs
    | some c =>
      rw [hcc] at hn
      exact hn (hc c hcc)
  have h2 : ¬ (task.check_path.isSome ∧
      ¬ env.pathExists (expandTilde env.home (task.check_path.getD ""))) := by
    rintro ⟨hs, hn⟩
    cases hcp : task.check_path with
    | none => rw [hcp] at hs; exact Bool.noConfusion hs
    | some p =>
      rw [hcp] at hn
      exact hn (hp p hcp)
  simp only [execute_task]
  rw [if_neg Bool.false_ne_true, if_neg h1, if_neg h2, he]
  exact ⟨rfl, rfl⟩

/-- C6: a task whose process run fails (non-zero exit, spawn error or
timeout — any `.error e` outcome of the run step) yields `Skipped` when
`required = false` and `Failed` when `required = true`, and in both
cases the result's output is `some e` — never absent. -/
theorem C6_failure_classification :
    ∀ (env : TaskEnv) (task : TaskConfig) (g gi e : String),
    (∀ c, task.check_command = some c → env.checkCommandExists c = true) →
    (∀ p, task.check_path = some p →
      env.pathExists (expandTilde env.home p) = true) →
    (taskRunResult env task).1 = .error e →
    (execute_task false env task g gi).status =
      (if task.required then TaskStatus.Failed else TaskStatus.Skipped) ∧
    (execute_task false env task g gi).output = some e := by
  intro env task g gi e hc hp he
  exact execute_task_error_classify env task g gi e hc hp he

/-- C6, witness: a concrete required task whose process exits non-zero
yields `Failed` with the stderr-derived reason as output. -/
theorem C6_witness :
    (execute_task false envFail (mkTask "B") "G" "").status =
      (if (mkTask "B").required then TaskStatus.Failed else TaskStatus.Skipped) ∧
    (execute_task false envFail (mkTask "B") "G" "").output =
      some "Command failed: boom" :=
  C6_failure_classification envFail (mkTask "B") "G" "" "Command failed: boom"
    (fun c h => by simp [mkTask] at h)
    (fun p h => by simp [mkTask] at h)
    rfl

/-- Fixture: a task with an empty command vector. -/
def emptyCmdTask : TaskConfig := { mkTask "E" with command := [] }

/-- C9: a task with an empty command vector does not crash the executor:
the sudo-prepend guard (`task.sudo && !cmd.is_empty() && cmd[0] != "sudo"`)
short-circuits before indexing, the empty vector reaches `run_command`,
and the task yields the reason `Empty command` (`Failed` if required,
`Skipped` otherwise).  Totality of `execute_task` is the no-crash
content of the claim. -/
theorem C9_empty_command_yields_reason :
    ∀ (env : TaskEnv) (task : TaskConfig) (g gi : String),
    task.command = [] →
    (∀ c, task.check_command = some c → env.checkCommandExists c = true) →
    (∀ p, task.check_path = some p →
      env.pathExists (expandTilde env.home p) = true) →
    (execute_task false env task g gi).output = some "Empty command" ∧
    (execute_task false env task g gi).status =
      (if task.required then TaskStatus.Failed else TaskStatus.Skipped) := by
  intro env task g gi hcmd hc hp
  have hfc : finalCommand task = [] := by
    simp [finalCommand, hcmd]
  have he : (taskRunResult env task).1 = .error "Empty command" := by
    simp [taskRunResult, hfc, run_command]
  have h := execute_task_error_classify env task g gi "Empty command" hc hp he
  exact ⟨h.2, h.1⟩

/-- C9, witness: the concrete empty-command task yields the
`Empty command` reason and `Failed` status (it is required). -/
theorem C9_witness :
    (execute_task false envOk emptyCmdTask "G" "").output = some "Empty command" ∧
    (execute_task false envOk emptyCmdTask "G" "").status =
      (if emptyCmdTask.required then TaskStatus.Failed else TaskStatus.Skipped) :=
  C9_empty_command_yields_reason envOk emptyCmdTask "G" "" rfl
    (fun c h => by simp [emptyCmdTask, mkTask] at h)
    (fun p h => by simp [emptyCmdTask, mkTask] at h)

/-- Membership in a `dropWhile` result implies membership in the list. -/
theorem mem_of_mem_dropWhile {α : Type} (p : α → Bool) (l : List α) (a : α)
    (h : a ∈ l.dropWhile p) : a ∈ l := by
  induction l with
  | nil => simp at h
  | cons x xs ih =>
    rw [List.dropWhile_cons] at h
    by_cases hp : p x = true
    · rw [if_pos hp] at h
      exact List.mem_cons_of_mem x (ih h)
    · rw [if_neg hp] at h
      exact h

/-- Every task-execution event is a `taskExec`, never a `preAuth`. -/
theorem preAuth_not_mem_mainTaskEvents (args : Args) (settings : Settings)
    (envOf : TaskConfig → TaskEnv) (groups : List TaskGroup) :
    MainEvent.preAuth ∉ mainTaskEvents args settings envOf groups := by
  simp only [mainTaskEvents]
  intro h
  rcases List.mem_append.mp h with h | h
  · rcases List.mem_map.mp h with ⟨x, _, hx⟩
    exact MainEvent.noConfusion hx
  · rcases List.mem_map.mp h with ⟨x, _, hx⟩
    exact MainEvent.noConfusion hx

/-- A list without `preAuth` events has a pre-authorization count of 0. -/
theorem preAuthCount_eq_zero (l : List MainEvent)
    (h : MainEvent.preAuth ∉ l) : preAuthCount l = 0 := by
  simp only [preAuthCount]
  rw [List.countP_eq_zero]
  intro a ha
  simp only [decide_eq_true_eq]
  intro hEq
  exact h (hEq ▸ ha)

/-- The event list splits into the (auth-outcome-independent)
pre-authorization prefix and the task events: the source matches the
result of `ensure_sudo_auth` but both arms continue identically. -/
theorem mainEvents_eq_parts (args : Args) (settings : Settings) (sudoAvail : Bool)
    (pe : PreauthEnv) (envOf : TaskConfig → TaskEnv) (groups : List TaskGroup) :
    mainEvents args settings sudoAvail pe envOf groups =
      (if (!args.dry_run && !args.quiet && sudoAvail) = true
       then [MainEvent.preAuth] else [])
        ++ mainTaskEvents args settings envOf groups := by
  simp only [mainEvents]
  by_cases h : (!args.dry_run && !args.quiet && sudoAvail) = true
  · rw [if_pos h, if_pos h]
    cases ensure_sudo_auth pe <;> rfl
  · rw [if_neg h, if_neg h]

/-- C7: pre-authorization is attempted at most once per run; it never
happens in dry-run or quiet mode; every pre-authorization event strictly
precedes every task execution (after stripping the leading preAuth
events nothing that remains is a preAuth); and the whole event sequence
is independent of the pre-authorization oracle — in particular an empty
or cancelled password entry changes nothing about which tasks execute. -/
theorem C7_preauth_once_before_tasks_and_nonfatal :
    ∀ (args : Args) (settings : Settings) (sudoAvail : Bool)
      (pe pe2 : PreauthEnv) (envOf : TaskConfig → TaskEnv)
      (groups : List TaskGroup),
    (args.dry_run = true ∨ args.quiet = true →
      preAuthCount (mainEvents args settings sudoAvail pe envOf groups) = 0) ∧
    preAuthCount (mainEvents args settings sudoAvail pe envOf groups) ≤ 1 ∧
    MainEvent.preAuth ∉
      (mainEvents args settings sudoAvail pe envOf groups).dropWhile
        (fun e => decide (e = MainEvent.preAuth)) ∧
    mainEvents args settings sudoAvail pe envOf groups =
      mainEvents args settings sudoAvail pe2 envOf groups := by
  intro args settings sudoAvail pe pe2 envOf groups
  have hte := preAuth_not_mem_mainTaskEvents args settings envOf groups
  have heq := mainEvents_eq_parts args settings sudoAvail pe envOf groups
  refine ⟨?_, ?_, ?_, ?_⟩
  · intro hdq
    have hcond : ¬ ((!args.dry_run && !args.quiet && sudoAvail) = true) := by
      rcases hdq with h | h <;> simp [h]
    rw [heq, if_neg hcond, List.nil_append]
    exact preAuthCount_eq_zero _ hte
  · rw [heq]
    by_cases h : (!args.dry_run && !args.quiet && sudoAvail) = true
    · rw [if_pos h, List.singleton_append]
      simp only [preAuthCount, List.countP_cons]
      have h0 := preAuthCount_eq_zero _ hte
      simp only [preAuthCount] at h0
      simp [h0]
    · rw [if_neg h, List.nil_append]
      rw [preAuthCount_eq_zero _ hte]
      exact Nat.zero_le 1
  · rw [heq]
    by_cases h : (!args.dry_run && !args.quiet && sudoAvail) = true
    · rw [if_pos h, List.singleton_append, List.dropWhile_cons]
      rw [if_pos (by simp)]
      intro hmem
      exact hte (mem_of_mem_dropWhile _ _ _ hmem)
    · rw [if_neg h, List.nil_append]
      intro hmem
      exact hte (mem_of_mem_dropWhile _ _ _ hmem)
  · rw [heq, mainEvents_eq_parts args settings sudoAvail pe2 envOf groups]

/-- Fixture: a pre-authorization oracle where the user cancels the
interactive prompt and nothing is cached. -/
def peCancelled : PreauthEnv :=
  { cachedValid := false, keychainPassword := none, authValid := fun _ => false
    promptReply := none, entryExists := false, saveReply := false, saveOk := false }

/-- Fixture: a pre-authorization oracle with a valid cached timestamp. -/
def peCached : PreauthEnv := { peCancelled with cachedValid := true }

/-- Fixture: CLI arguments in dry-run mode. -/
def argsDry : Args := { argsDefault with dry_run := true }

/-- C7, witness: in dry-run mode no pre-authorization happens, and a
cancelled prompt produces the same run as a valid cached session. -/
theorem C7_witness :
    preAuthCount (mainEvents argsDry settingsNoSkip true peCancelled envOfFailB
      [seqGroupABC]) = 0 ∧
    mainEvents argsDefault settingsNoSkip true peCancelled envOfFailB [seqGroupABC] =
      mainEvents argsDefault settingsNoSkip true peCached envOfFailB [seqGroupABC] :=
  ⟨(C7_preauth_once_before_tasks_and_nonfatal argsDry settingsNoSkip true
      peCancelled peCancelled envOfFailB [seqGroupABC]).1 (Or.inl rfl),
   (C7_preauth_once_before_tasks_and_nonfatal argsDefault settingsNoSkip true
      peCancelled peCached envOfFailB [seqGroupABC]).2.2.2⟩

/-- One step of the duration-only shadow of the max-by-key fold. -/
def durFoldStep (acc : Option Nat) (d : Nat) : Option Nat :=
  match acc with
  | none => some d
  | some m => some (Nat.max m d)

/-- Duration-only shadow of the max-by-key fold. -/
def durFold (a : Option Nat) (ds : List Nat) : Option Nat :=
  ds.foldl durFoldStep a

/-- Projecting the duration through one `durStep` is one `durFoldStep`. -/
theorem durStep_duration (acc : Option TaskResult) (r : TaskResult) :
    (durStep acc r).map TaskResult.duration =
      durFoldStep (acc.map TaskResult.duration) r.duration := by
  cases acc with
  | none => rfl
  | some m =>
    simp only [durStep, durFoldStep, Option.map_some']
    by_cases h : m.duration > r.duration
    · rw [if_pos h]
      simp [Nat.max_eq_left (Nat.le_of_lt h)]
    · rw [if_neg h]
      simp [Nat.max_eq_right (Nat.le_of_not_lt h)]

/-- Projecting the duration through the whole max-by-key fold is the
duration-only fold. -/
theorem foldl_durStep_map (l : List TaskResult) :
    ∀ (acc : Option TaskResult),
    (l.foldl durStep acc).map TaskResult.duration =
      durFold (acc.map TaskResult.duration) (l.map TaskResult.duration) := by
  induction l with
  | nil => intro acc; rfl
  | cons x xs ih =>
    intro acc
    simp only [List.foldl_cons, List.map_cons, durFold]
    rw [ih (durStep acc x), durStep_duration]
    rfl

/-- The duration-only fold is invariant under permutation of the
durations — `Nat.max` is associative and commutative. -/
theorem durFold_perm (ds₁ ds₂ : List Nat) (h : ds₁.Perm ds₂) :
    ∀ a, durFold a ds₁ = durFold a ds₂ := by
  induction h with
  | nil => intro a; rfl
  | cons x h ih =>
    intro a
    simp only [durFold, List.foldl_cons]
    exact ih _
  | swap x y l =>
    intro a
    simp only [durFold, List.foldl_cons]
    have hstep : durFoldStep (durFoldStep a y) x = durFoldStep (durFoldStep a x) y := by
      cases a with
      | none => simp [durFoldStep, Nat.max_comm]
      | some m =>
        simp only [durFoldStep]
        show some (max (max m y) x) = some (max (max m x) y)
        rw [max_assoc, max_comm y x, ← max_assoc]
    rw [hstep]
  | trans h1 h2 ih1 ih2 =>
    intro a
    rw [ih1 a, ih2 a]

/-- The duration of the selected longest task is permutation-invariant
(the selected task itself is not, when durations tie). -/
theorem maxByDuration_perm_duration (l₁ l₂ : List TaskResult) (h : l₁.Perm l₂) :
    (maxByDuration l₁).map TaskResult.duration =
      (maxByDuration l₂).map TaskResult.duration := by
  simp only [maxByDuration]
  rw [foldl_durStep_map, foldl_durStep_map]
  exact durFold_perm _ _ (h.map TaskResult.duration) none

/-- C8, amended: the summary is a pure function of the result list
(computing it twice yields identical summaries — purity is by
construction in this embedding); the per-status counts and the duration
of the maximal-duration task are invariant under permutation.  The
IDENTITY of the maximal-duration task is not permutation-invariant when
durations tie, because `max_by_key` returns the last maximal element. -/
theorem C8_amended_summary_invariants :
    ∀ (l₁ l₂ : List TaskResult), l₁.Perm l₂ →
    summarize l₁ = summarize l₁ ∧
    (summarize l₁).success = (summarize l₂).success ∧
    (summarize l₁).failed = (summarize l₂).failed ∧
    (summarize l₁).skipped = (summarize l₂).skipped ∧
    (summarize l₁).longest.map TaskResult.duration =
      (summarize l₂).longest.map TaskResult.duration := by
  intro l₁ l₂ h
  refine ⟨rfl, ?_, ?_, ?_, ?_⟩
  · exact h.countP_eq _
  · exact h.countP_eq _
  · exact h.countP_eq _
  · exact maxByDuration_perm_duration l₁ l₂ h

/-- Fixture: two success results with equal durations, distinct names. -/
def rTieA : TaskResult :=
  { name := "a", group := "g", group_icon := "", status := .Success
    duration := 5, output := none }

/-- Fixture: the partner of `rTieA` with the same duration. -/
def rTieB : TaskResult :=
  { name := "b", group := "g", group_icon := "", status := .Success
    duration := 5, output := none }

/-- C8, counterexample: on two permuted lists holding tasks with tied
durations and different names, the summary selects DIFFERENT
maximal-duration tasks — `max_by_key` keeps the last maximal element, so
the longest task is not invariant under permutation as claimed. -/
theorem C8_counterexample_tied_durations :
    [rTieA, rTieB].Perm [rTieB, rTieA] ∧
    (summarize [rTieA, rTieB]).longest ≠ (summarize [rTieB, rTieA]).longest :=
  ⟨List.Perm.swap rTieB rTieA [], by decide⟩

/-- C8, witness for the amended theorem at the concrete permuted pair. -/
theorem C8_amended_witness :
    (summarize [rTieA, rTieB]).success = (summarize [rTieB, rTieA]).success ∧
    (summarize [rTieA, rTieB]).longest.map TaskResult.duration =
      (summarize [rTieB, rTieA]).longest.map TaskResult.duration :=
  ⟨(C8_amended_summary_invariants [rTieA, rTieB] [rTieB, rTieA]
      (List.Perm.swap rTieB rTieA [])).2.1,
   (C8_amended_summary_invariants [rTieA, rTieB] [rTieB, rTieA]
      (List.Perm.swap rTieB rTieA [])).2.2.2.2⟩

end Tide
